import Mathlib

/-!
# Verification of the mods-optimizer stat and character-selection layer

A shallow embedding of `src/domain/Stat.js` and of the character-edit
actions (`selectCharacter` / `moveSelectedCharacter` / `unselectCharacter` /
`changeCharacterTarget` / `finishEditCharacterTarget`), together with proofs
of the specification claims about them.

Modelling conventions:
* JavaScript numbers are modelled as rationals (`ℚ`).
* A JavaScript string holding a stat value (such as `"+5.5%"`) is modelled by
  `ValueStr`: its numeric content after stripping `+` and `%` characters, and
  whether it ends with `'%'`.  This is faithful for every well-formed value
  string the application produces (an optional `+` sign, a decimal numeral,
  an optional trailing `%`).
* Code that can throw is modelled with `Option`/`Except`; `none`/`.error`
  marks the states in which the JavaScript code would raise.
* JavaScript object lookups that may yield `undefined` are modelled with
  `Option`-returning maps.
* `statTypeMap` (imported by `Stat.js` from `src/constants/statTypeMap`,
  a file not part of the provided sources) is passed as an explicit
  parameter of type `String → Option (List String)`.
-/

namespace MO

/-! ### JavaScript string primitives

`String.prototype.endsWith('%')`, `substr(0, length - 1)`, `trim()` and
`includes('%')`, re-implemented by structural recursion on the character
list so that they reduce inside the kernel. -/

/-- Models JavaScript `s.endsWith('%')`: the last character is `'%'`. -/
def endsWithPct (s : String) : Bool :=
  match s.data.getLast? with
  | some c => c == '%'
  | none => false

/-- Models JavaScript `s.substr(0, s.length - 1)`: drop the last character. -/
def dropLastChar (s : String) : String := ⟨s.data.dropLast⟩

/-- Models JavaScript `s.trim()` for the space-separated ASCII strings used
by the application: strip leading and trailing `' '` characters. -/
def trimSpaces (s : String) : String :=
  ⟨((s.data.dropWhile (· == ' ')).reverse.dropWhile (· == ' ')).reverse⟩

/-- Models JavaScript `s.includes('%')`. -/
def containsPct (s : String) : Bool := s.data.contains '%'

/-- Models a JavaScript object-literal lookup `obj[key]` (first matching key,
`undefined` becomes `none`). -/
def jsLookup {α : Type} (key : String) : List (String × α) → Option α
  | [] => none
  | (k, v) :: rest => if key == k then some v else jsLookup key rest

/-- Models JavaScript `Array.prototype.map` over a callback that can throw:
elements are processed left to right and the first raised error aborts the
whole map. -/
def jsMapThrow {α β : Type} (f : α → Except String β) : List α → Except String (List β)
  | [] => .ok []
  | a :: as =>
    match f a with
    | .error e => .error e
    | .ok b =>
      match jsMapThrow f as with
      | .error e => .error e
      | .ok bs => .ok (b :: bs)

/-! ### Value strings -/

/-- Abstraction of the string passed as `value` to the `Stat` constructor:
`num` is its numeric content after `value.replace(/[+%]/g, '')`, and `pct`
records whether `value.endsWith('%')`. -/
structure ValueStr where
  num : ℚ
  pct : Bool

/-! ### Data model surrounding `Stat`

`OptimizationPlan` is the target object: indexing it by an internal stat
name (`character.optimizerSettings.target[statType]`) yields that stat's
weight, modelled as a total function `weight`. -/

structure OptimizationPlan where
  name : String
  weight : String → ℚ

/-- Optimizer settings of one character, as read by the code under
verification: the selected target and the lock flag. -/
structure OptimizerSettings where
  target : OptimizationPlan
  isLocked : Bool

/-- Modelled from the spec: `OptimizerSettings.unlock()` — the per-character
lock state (Locked/Unlocked) is cleared; the class `domain/OptimizerSettings`
is not part of the provided sources. -/
def OptimizerSettings.unlock (o : OptimizerSettings) : OptimizerSettings :=
  { o with isLocked := false }

/-- Modelled from the spec: `OptimizerSettings.withTarget(newTarget)` —
replaces the selected target; the class `domain/OptimizerSettings` is not
part of the provided sources. -/
def OptimizerSettings.withTarget (o : OptimizerSettings) (t : OptimizationPlan) :
    OptimizerSettings :=
  { o with target := t }

/-- `character.playerValues`: only `baseStats` is read by `Stat.js`.
`baseStats` is `none` when the player's base stats are absent
(`null`/`undefined` in JavaScript); when present it maps an internal stat
name to its flat base value. -/
structure PlayerValues where
  baseStats : Option (String → ℚ)

structure Character where
  baseID : String
  playerValues : PlayerValues
  optimizerSettings : OptimizerSettings

/-- Modelled from the spec: `Character.withOptimizerSettings(settings)` —
functional field update; the class `domain/Character` is not part of the
provided sources. -/
def Character.withOptimizerSettings (c : Character) (o : OptimizerSettings) : Character :=
  { c with optimizerSettings := o }

/-! ### `Stat` (src/domain/Stat.js)

The display-only field `displayValue` (a formatted copy of `value`) is
omitted: no claim and no embedded method reads it. -/

structure Stat where
  displayModifier : String
  type : String
  displayType : String
  rawValue : ℚ
  value : ℚ
  isPercent : Bool
  rolls : Nat

/-- `Stat.mixedTypes` (Stat.js lines 204-212). -/
def Stat.mixedTypes : List String :=
  ["Health", "Protection", "Offense", "Physical Damage", "Special Damage",
   "Speed", "Defense", "Armor", "Resistance"]

/-- The entries of `Stat.displayNames` (Stat.js lines 215-234). -/
def Stat.displayNamesList : List (String × String) :=
  [("health", "Health"),
   ("protection", "Protection"),
   ("speed", "Speed"),
   ("critDmg", "Critical Damage"),
   ("potency", "Potency"),
   ("tenacity", "Tenacity"),
   ("physDmg", "Physical Damage"),
   ("specDmg", "Special Damage"),
   ("critChance", "Critical Chance"),
   ("physCritChance", "Physical Critical Chance"),
   ("specCritChance", "Special Critical Chance"),
   ("defense", "Defense"),
   ("armor", "Armor"),
   ("resistance", "Resistance"),
   ("accuracy", "Accuracy"),
   ("critAvoid", "Critical Avoidance"),
   ("physCritAvoid", "Physical Critical Avoidance"),
   ("specCritAvoid", "Special Critical Avoidance")]

/-- `Stat.displayNames[statName]` as an object lookup. -/
def Stat.displayNames (statName : String) : Option String :=
  jsLookup statName Stat.displayNamesList

/-- The entries of `Stat.secondaryUpgradeFactors` (Stat.js lines 328-340). -/
def Stat.secondaryUpgradeFactorsList : List (String × ℚ) :=
  [("Offense %", 3.02),
   ("Defense %", 2.34),
   ("Health %", 1.86),
   ("Defense", 1.63),
   ("Tenacity %", 1.33),
   ("Potency %", 1.33),
   ("Protection %", 1.33),
   ("Health", 1.26),
   ("Protection", 1.11),
   ("Offense", 1.10),
   ("Critical Chance %", 1.04)]

/-- `Stat.secondaryUpgradeFactors[type]` as an object lookup. -/
def Stat.secondaryUpgradeFactors (type : String) : Option ℚ :=
  jsLookup type Stat.secondaryUpgradeFactorsList

/-- The `Stat` constructor (Stat.js lines 15-24):
`displayModifier` is `'%'` when the type or the value string ends in `'%'`;
`displayType` strips a trailing `'%'` (and surrounding space) from the type;
`rawValue`/`value` are the numeric content of the value string; `isPercent`
holds when the modifier is `'%'` and the display type is a mixed type. -/
def mkStat (type : String) (v : ValueStr) (rolls : Nat) : Stat :=
  let dm := if endsWithPct type || v.pct then "%" else ""
  let dt := if endsWithPct type then trimSpaces (dropLastChar type) else type
  { displayModifier := dm
    type := type
    displayType := dt
    rawValue := v.num
    value := v.num
    isPercent := dm == "%" && Stat.mixedTypes.contains dt
    rolls := rolls }

/-- `Stat.prototype.plus` (Stat.js lines 96-106).  The JavaScript
`instanceof Stat` guard is discharged by typing; the remaining error is
raised exactly when the display types or the percent flags differ.  On
success the constructor is called with `` `${valueSum}${this.displayModifier}` ``
and the default roll count 1. -/
def Stat.plus (s that : Stat) : Except String Stat :=
  if that.displayType != s.displayType || that.isPercent != s.isPercent then
    .error "Cannot add two Stats of different types"
  else
    .ok (mkStat s.type ⟨s.value + that.value, s.displayModifier == "%"⟩ 1)

/-- The stat-type string built inside `getFlatValuesForCharacter`
(Stat.js lines 117-118): the display name when it is a mixed type,
otherwise the display name followed by `' %'`; an undefined display name
coerces to the string `"undefined"`. -/
def flatStatType (statName : String) : String :=
  match Stat.displayNames statName with
  | some d => if Stat.mixedTypes.contains d then d else d ++ " %"
  | none => "undefined %"

/-- `Stat.prototype.getFlatValuesForCharacter` (Stat.js lines 113-128).
`.error` marks the states in which the JavaScript code throws: the
`TypeError` from mapping over an undefined `statTypeMap` entry, and the
explicit `Error` when a percent stat meets absent base stats. -/
def Stat.getFlatValuesForCharacter (statTypeMap : String → Option (List String))
    (s : Stat) (character : Character) : Except String (List Stat) :=
  match statTypeMap s.displayType with
  | none => .error "TypeError: cannot map over undefined"
  | some statPropertyNames =>
    jsMapThrow (fun statName =>
      let statType := flatStatType statName
      if s.isPercent then
        match character.playerValues.baseStats with
        | some baseStats =>
          .ok (mkStat statType ⟨s.value * baseStats statName / 100, false⟩ 1)
        | none =>
          .error ("Stat is given as a percentage, but " ++ character.baseID ++
            " has no base stats")
      else
        .ok (mkStat statType ⟨s.rawValue, false⟩ 1)) statPropertyNames

/-- `Stat.prototype.upgradeSecondary` (Stat.js lines 146-154): apply the
per-type factor when one is configured, add 1 for `'Speed'`, otherwise
return the stat unchanged. -/
def Stat.upgradeSecondary (s : Stat) : Stat :=
  match Stat.secondaryUpgradeFactors s.type with
  | some factor => mkStat s.type ⟨factor * s.value, false⟩ 1
  | none =>
    if s.type == "Speed" then mkStat s.type ⟨s.value + 1, false⟩ 1
    else s

/-- `Stat.prototype.getOptimizationValue` (Stat.js lines 161-181).
`none` marks the states in which the JavaScript code throws: mapping over
an undefined `statTypeMap` entry, or indexing absent base stats in the
percent branch. -/
def Stat.getOptimizationValue (statTypeMap : String → Option (List String))
    (s : Stat) (character : Character) : Option ℚ :=
  if s.displayType == "Special Critical Chance" then
    some 0
  else
    let statTypesOpt :=
      if s.displayType == "Physical Critical Chance" then some ["critChance"]
      else statTypeMap s.displayType
    match statTypesOpt with
    | none => none
    | some statTypes =>
      if s.isPercent then
        match character.playerValues.baseStats with
        | none => none
        | some baseStats =>
          some ((statTypes.map (fun statType =>
            character.optimizerSettings.target.weight statType *
              (⌊baseStats statType * s.value / 100⌋ : ℚ))).foldl (· + ·) 0)
      else
        some ((statTypes.map (fun statType =>
          character.optimizerSettings.target.weight statType * s.value)).foldl (· + ·) 0)

/-- `Stat.prototype.serialize` (Stat.js lines 186-191): the type string, the
value string `` `+${rawValue}${percent}` `` (as a `ValueStr`), and the roll
count. -/
def Stat.serialize (s : Stat) : String × ValueStr × Nat :=
  let percent :=
    if (s.isPercent || !Stat.mixedTypes.contains s.displayType) && !containsPct s.type
    then "%" else ""
  (s.type, ⟨s.rawValue, percent == "%"⟩, s.rolls)

/-! ### Claim-side definitions for the optimization value -/

/-- The stat types a stat's contribution is credited to, per the claims:
special critical chance is credited to nothing, physical critical chance to
the single `critChance` weight, every other display type to its
`statTypeMap` entry. -/
def optStatTypes (statTypeMap : String → Option (List String)) (s : Stat) : List String :=
  if s.displayType == "Special Critical Chance" then []
  else if s.displayType == "Physical Critical Chance" then ["critChance"]
  else (statTypeMap s.displayType).getD []

/-- The claims' effective contribution of a stat to one internal stat type:
the raw value for a flat stat, and the percent value converted to a flat
contribution through the base stat (with the code's rounding) for a percent
stat. -/
def effectiveContribution (s : Stat) (baseStats : String → ℚ) (statType : String) : ℚ :=
  if s.isPercent then (⌊baseStats statType * s.value / 100⌋ : ℚ) else s.value

/-! ### Profile and the character-edit actions (the unnamed actions file)

`PlayerProfile` itself is not part of the provided sources; per the spec's
data model it carries the ordered selected-characters list (pairs of
character id and target) and the character map, and
`withSelectedCharacters` / `withCharacters` are functional field updates. -/

structure SelectedCharacter where
  id : String
  target : OptimizationPlan

structure Profile where
  selectedCharacters : List SelectedCharacter
  characters : String → Option Character

/-- `moveSelectedCharacter(fromIndex, toIndex)` applied to a profile.
`toIndex = none` models the JavaScript `null`.  `none` as a result marks an
out-of-range `fromIndex`, where the JavaScript `splice` would produce
`undefined` and insert it into the list. -/
def moveSelectedCharacter (fromIndex : Nat) (toIndex : Option Nat)
    (profile : Profile) : Option Profile :=
  if toIndex == some fromIndex then some profile
  else
    let l := profile.selectedCharacters
    match l[fromIndex]? with
    | none => none
    | some oldValue =>
      let rest := l.take fromIndex ++ l.drop (fromIndex + 1)
      match toIndex with
      | none => some { profile with selectedCharacters := oldValue :: rest }
      | some t =>
        if fromIndex < t then
          some { profile with
            selectedCharacters := rest.take t ++ oldValue :: rest.drop t }
        else
          some { profile with
            selectedCharacters := rest.take (t + 1) ++ oldValue :: rest.drop (t + 1) }

/-- `unselectCharacter(characterIndex)` applied to a profile.  `none` as a
result marks the state in which `profile.characters[oldValue.id]` is
undefined and the JavaScript code would throw calling a method on it. -/
def unselectCharacter (characterIndex : Nat) (profile : Profile) : Option Profile :=
  if profile.selectedCharacters.length > characterIndex then
    match profile.selectedCharacters[characterIndex]? with
    | none => none
    | some oldValue =>
      match profile.characters oldValue.id with
      | none => none
      | some oldCharacter =>
        some { profile with
          selectedCharacters :=
            profile.selectedCharacters.take characterIndex ++
              profile.selectedCharacters.drop (characterIndex + 1)
          characters := fun id =>
            if id == oldValue.id then
              some (oldCharacter.withOptimizerSettings oldCharacter.optimizerSettings.unlock)
            else profile.characters id }
  else some profile

/-- `changeCharacterTarget(characterIndex, target)` applied to a profile:
guard out-of-range indices, then splice the entry out and splice back a copy
with the new target. -/
def changeCharacterTarget (characterIndex : Nat) (target : OptimizationPlan)
    (profile : Profile) : Profile :=
  let l := profile.selectedCharacters
  if l.length ≤ characterIndex then profile
  else
    match l[characterIndex]? with
    | none => profile
    | some oldValue =>
      let rest := l.take characterIndex ++ l.drop (characterIndex + 1)
      { profile with
        selectedCharacters :=
          rest.take characterIndex ++
            { oldValue with target := target } :: rest.drop characterIndex }

/-- `finishEditCharacterTarget(characterIndex, newTarget)` applied to a
profile: guard out-of-range indices, replace the list entry, and store the
new target on the character.  `none` marks an undefined character record,
where the JavaScript code would throw. -/
def finishEditCharacterTarget (characterIndex : Nat) (newTarget : OptimizationPlan)
    (profile : Profile) : Option Profile :=
  let l := profile.selectedCharacters
  if l.length ≤ characterIndex then some profile
  else
    match l[characterIndex]? with
    | none => none
    | some oldValue =>
      let rest := l.take characterIndex ++ l.drop (characterIndex + 1)
      let newSel := rest.take characterIndex ++
        (⟨oldValue.id, newTarget⟩ : SelectedCharacter) :: rest.drop characterIndex
      match profile.characters oldValue.id with
      | none => none
      | some oldCharacter =>
        let newCharacter := oldCharacter.withOptimizerSettings
          (oldCharacter.optimizerSettings.withTarget newTarget)
        some { profile with
          selectedCharacters := newSel
          characters := fun id =>
            if id == newCharacter.baseID then some newCharacter
            else profile.characters id }

/-! ### Helper lemmas -/

lemma mkStat_type (t : String) (v : ValueStr) (r : Nat) : (mkStat t v r).type = t := rfl

lemma mkStat_value (t : String) (v : ValueStr) (r : Nat) : (mkStat t v r).value = v.num := rfl

lemma jsLookup_mem {α : Type} (k : String) (v : α) :
    ∀ l : List (String × α), jsLookup k l = some v → v ∈ l.map Prod.snd := by
  intro l
  induction l with
  | nil => intro h; simp [jsLookup] at h
  | cons p rest ih =>
    intro h
    rcases p with ⟨pk, pv⟩
    rw [jsLookup] at h
    by_cases hk : (k == pk) = true
    · rw [if_pos hk] at h
      cases h
      simp
    · rw [if_neg hk] at h
      simpa using Or.inr (ih h)

/-- Every configured slicing upgrade factor is at least 1. -/
lemma secondaryUpgradeFactor_ge_one (t : String) (f : ℚ)
    (h : Stat.secondaryUpgradeFactors t = some f) : 1 ≤ f := by
  have hm := jsLookup_mem t f _ h
  simp [Stat.secondaryUpgradeFactorsList] at hm
  rcases hm with rfl | rfl | rfl | rfl | rfl | rfl | rfl | rfl | rfl | rfl | rfl <;> norm_num

lemma jsMapThrow_ok_map {α β : Type} (f : α → β) (l : List α) :
    jsMapThrow (fun a => Except.ok (f a)) l = .ok (l.map f) := by
  induction l with
  | nil => rfl
  | cons a as ih => simp [jsMapThrow, ih]

lemma jsMapThrow_const_error {α β : Type} (msg : String) (l : List α) (h : l ≠ []) :
    jsMapThrow (fun _ => (Except.error msg : Except String β)) l = .error msg := by
  cases l with
  | nil => exact absurd rfl h
  | cons a as => rfl

/-- Every stat produced inside `getFlatValuesForCharacter` is a flat stat:
its constructed type string never makes `isPercent` true. -/
lemma flatStat_isPercent (n : String) (num : ℚ) (r : Nat) :
    (mkStat (flatStatType n) ⟨num, false⟩ r).isPercent = false := by
  rcases hd : Stat.displayNames n with _ | d
  · have hft : flatStatType n = "undefined %" := by simp [flatStatType, hd]
    rw [hft]
    rfl
  · have hmem := jsLookup_mem n d _ hd
    simp [Stat.displayNamesList] at hmem
    have hft : flatStatType n = if Stat.mixedTypes.contains d then d else d ++ " %" := by
      simp [flatStatType, hd]
    rw [hft]
    rcases hmem with rfl | rfl | rfl | rfl | rfl | rfl | rfl | rfl | rfl | rfl | rfl | rfl |
      rfl | rfl | rfl | rfl | rfl | rfl <;> rfl

/-- Splicing an element into a list at any position is a permutation of
consing it in front. -/
lemma take_cons_drop_perm {α : Type} (rest : List α) (p : Nat) (a : α) :
    (rest.take p ++ a :: rest.drop p).Perm (a :: rest) := by
  have h := @List.perm_middle α a (rest.take p) (rest.drop p)
  simpa [List.take_append_drop] using h

/-- Removing the element at an in-range index, then consing it in front,
is a permutation of the original list. -/
lemma remove_at_perm {α : Type} (l : List α) (i : Nat) (h : i < l.length) :
    l.Perm (l[i] :: (l.take i ++ l.drop (i + 1))) := by
  conv_lhs => rw [← List.take_append_drop i l, List.drop_eq_getElem_cons h]
  exact List.perm_middle

/-! ### Claim theorems -/

/-- C1: For every Stat and every character whose base stats are present,
`getOptimizationValue` returns the weighted sum, over the stat types the
stat maps to, of the target weight for that type times the stat's effective
contribution — the raw value for a flat stat, the percent value converted
through the base stat for a percent stat. -/
theorem getOptimizationValue_weighted_sum (stm : String → Option (List String))
    (s : Stat) (c : Character) (baseStats : String → ℚ)
    (hbs : c.playerValues.baseStats = some baseStats)
    (hmap : s.displayType ≠ "Special Critical Chance" →
      s.displayType ≠ "Physical Critical Chance" → (stm s.displayType).isSome = true) :
    s.getOptimizationValue stm c =
      some (((optStatTypes stm s).map (fun t =>
        c.optimizerSettings.target.weight t *
          effectiveContribution s baseStats t)).sum) := by
  by_cases h1 : s.displayType = "Special Critical Chance"
  · have hb : (s.displayType == "Special Critical Chance") = true := by simp [h1]
    simp [Stat.getOptimizationValue, optStatTypes, hb]
  · have hb1 : (s.displayType == "Special Critical Chance") = false := by simp [h1]
    by_cases h2 : s.displayType = "Physical Critical Chance"
    · have hb2 : (s.displayType == "Physical Critical Chance") = true := by simp [h2]
      cases hp : s.isPercent with
      | true =>
        simp [Stat.getOptimizationValue, optStatTypes, hb1, hb2, hbs, hp,
          effectiveContribution]
      | false =>
        simp [Stat.getOptimizationValue, optStatTypes, hb1, hb2, hp,
          effectiveContribution]
    · have hb2 : (s.displayType == "Physical Critical Chance") = false := by simp [h2]
      obtain ⟨names, hn⟩ := Option.isSome_iff_exists.mp (hmap h1 h2)
      cases hp : s.isPercent with
      | true =>
        simp [Stat.getOptimizationValue, optStatTypes, hb1, hb2, hn, hbs, hp,
          effectiveContribution, List.sum_eq_foldl]
      | false =>
        simp [Stat.getOptimizationValue, optStatTypes, hb1, hb2, hn, hp,
          effectiveContribution, List.sum_eq_foldl]

/-- Witness for C1: a concrete flat Health stat, a character with base
stats, and a one-entry stat type map. -/
theorem getOptimizationValue_weighted_sum_witness :
    Stat.getOptimizationValue (fun d => if d == "Health" then some ["health"] else none)
      (mkStat "Health" ⟨5, false⟩ 1)
      ⟨"x", ⟨some fun _ => 10⟩, ⟨⟨"p", fun _ => 1⟩, false⟩⟩ =
      some (((optStatTypes (fun d => if d == "Health" then some ["health"] else none)
        (mkStat "Health" ⟨5, false⟩ 1)).map (fun t =>
          (⟨"x", ⟨some fun _ => 10⟩, ⟨⟨"p", fun _ => 1⟩, false⟩⟩ :
            Character).optimizerSettings.target.weight t *
            effectiveContribution (mkStat "Health" ⟨5, false⟩ 1) (fun _ => 10) t)).sum) :=
  getOptimizationValue_weighted_sum (fun d => if d == "Health" then some ["health"] else none)
    (mkStat "Health" ⟨5, false⟩ 1)
    ⟨"x", ⟨some fun _ => 10⟩, ⟨⟨"p", fun _ => 1⟩, false⟩⟩
    (fun _ => 10) rfl (fun _ _ => rfl)

/-- C2: Converting a stat to flat values errors exactly when the stat is
percent-based and the base stats are absent; on success every produced stat
is flat, with value `percent × base / 100` for a percent stat and the raw
value for a flat stat, one per mapped stat type. -/
theorem getFlatValues_error_iff (stm : String → Option (List String)) (s : Stat)
    (c : Character) (names : List String)
    (hmap : stm s.displayType = some names) (hne : names ≠ []) :
    ((∃ e, s.getFlatValuesForCharacter stm c = .error e) ↔
      (s.isPercent = true ∧ c.playerValues.baseStats = none)) ∧
    (s.isPercent = false →
      ∃ res, s.getFlatValuesForCharacter stm c = .ok res ∧ res.length = names.length ∧
        ∀ i (h1 : i < names.length) (h2 : i < res.length),
          res[i].isPercent = false ∧ res[i].value = s.rawValue) ∧
    (∀ baseStats, s.isPercent = true → c.playerValues.baseStats = some baseStats →
      ∃ res, s.getFlatValuesForCharacter stm c = .ok res ∧ res.length = names.length ∧
        ∀ i (h1 : i < names.length) (h2 : i < res.length),
          res[i].isPercent = false ∧
          res[i].value = s.value * baseStats (names[i]) / 100) := by
  refine ⟨?_, ?_, ?_⟩
  · cases hp : s.isPercent with
    | false =>
      have hok : s.getFlatValuesForCharacter stm c =
          .ok (names.map (fun n => mkStat (flatStatType n) ⟨s.rawValue, false⟩ 1)) := by
        simp [Stat.getFlatValuesForCharacter, hmap, hp, jsMapThrow_ok_map]
      constructor
      · rintro ⟨e, he⟩
        rw [hok] at he
        cases he
      · rintro ⟨hpc, _⟩
        cases hpc
    | true =>
      rcases hbs : c.playerValues.baseStats with _ | baseStats
      · have herr : s.getFlatValuesForCharacter stm c =
            .error ("Stat is given as a percentage, but " ++ c.baseID ++
              " has no base stats") := by
          simp only [Stat.getFlatValuesForCharacter, hmap, hp, hbs]
          exact jsMapThrow_const_error _ _ hne
        exact ⟨fun _ => ⟨rfl, rfl⟩, fun _ => ⟨_, herr⟩⟩
      · have hok : s.getFlatValuesForCharacter stm c =
            .ok (names.map (fun n =>
              mkStat (flatStatType n) ⟨s.value * baseStats n / 100, false⟩ 1)) := by
          simp [Stat.getFlatValuesForCharacter, hmap, hp, hbs, jsMapThrow_ok_map]
        constructor
        · rintro ⟨e, he⟩
          rw [hok] at he
          cases he
        · rintro ⟨_, hnone⟩
          cases hnone
  · intro hp
    have hok : s.getFlatValuesForCharacter stm c =
        .ok (names.map (fun n => mkStat (flatStatType n) ⟨s.rawValue, false⟩ 1)) := by
      simp [Stat.getFlatValuesForCharacter, hmap, hp, jsMapThrow_ok_map]
    refine ⟨_, hok, by simp, ?_⟩
    intro i _ h2
    rw [List.getElem_map]
    exact ⟨flatStat_isPercent _ _ _, rfl⟩
  · intro baseStats hp hbs
    have hok : s.getFlatValuesForCharacter stm c =
        .ok (names.map (fun n =>
          mkStat (flatStatType n) ⟨s.value * baseStats n / 100, false⟩ 1)) := by
      simp [Stat.getFlatValuesForCharacter, hmap, hp, hbs, jsMapThrow_ok_map]
    refine ⟨_, hok, by simp, ?_⟩
    intro i _ h2
    rw [List.getElem_map]
    exact ⟨flatStat_isPercent _ _ _, rfl⟩

/-- Witness for C2: a concrete flat Health stat against a character without
base stats, with a one-entry stat type map. -/
theorem getFlatValues_error_iff_witness :
    ((∃ e, Stat.getFlatValuesForCharacter
        (fun d => if d == "Health" then some ["health"] else none)
        (mkStat "Health" ⟨4, false⟩ 1) ⟨"x", ⟨none⟩, ⟨⟨"p", fun _ => 1⟩, false⟩⟩ =
          .error e) ↔
      ((mkStat "Health" ⟨4, false⟩ 1).isPercent = true ∧
        (⟨"x", ⟨none⟩, ⟨⟨"p", fun _ => 1⟩, false⟩⟩ :
          Character).playerValues.baseStats = none)) ∧
    ((mkStat "Health" ⟨4, false⟩ 1).isPercent = false →
      ∃ res, Stat.getFlatValuesForCharacter
        (fun d => if d == "Health" then some ["health"] else none)
        (mkStat "Health" ⟨4, false⟩ 1) ⟨"x", ⟨none⟩, ⟨⟨"p", fun _ => 1⟩, false⟩⟩ =
          .ok res ∧
        res.length = (["health"] : List String).length ∧
        ∀ i (h1 : i < (["health"] : List String).length) (h2 : i < res.length),
          res[i].isPercent = false ∧
          res[i].value = (mkStat "Health" ⟨4, false⟩ 1).rawValue) ∧
    (∀ baseStats, (mkStat "Health" ⟨4, false⟩ 1).isPercent = true →
      (⟨"x", ⟨none⟩, ⟨⟨"p", fun _ => 1⟩, false⟩⟩ :
        Character).playerValues.baseStats = some baseStats →
      ∃ res, Stat.getFlatValuesForCharacter
        (fun d => if d == "Health" then some ["health"] else none)
        (mkStat "Health" ⟨4, false⟩ 1) ⟨"x", ⟨none⟩, ⟨⟨"p", fun _ => 1⟩, false⟩⟩ =
          .ok res ∧
        res.length = (["health"] : List String).length ∧
        ∀ i (h1 : i < (["health"] : List String).length) (h2 : i < res.length),
          res[i].isPercent = false ∧
          res[i].value = (mkStat "Health" ⟨4, false⟩ 1).value *
            baseStats ((["health"] : List String)[i]) / 100) :=
  getFlatValues_error_iff (fun d => if d == "Health" then some ["health"] else none)
    (mkStat "Health" ⟨4, false⟩ 1) ⟨"x", ⟨none⟩, ⟨⟨"p", fun _ => 1⟩, false⟩⟩
    ["health"] rfl (by simp)

/-- C3: A Special Critical Chance stat contributes exactly zero optimization
value, and a Physical Critical Chance stat is credited under the single
`critChance` weight of the target. -/
theorem critChance_merge (stm : String → Option (List String)) (s : Stat) (c : Character) :
    (s.displayType = "Special Critical Chance" → s.getOptimizationValue stm c = some 0) ∧
    (∀ baseStats, s.displayType = "Physical Critical Chance" →
      c.playerValues.baseStats = some baseStats →
      s.getOptimizationValue stm c =
        some (c.optimizerSettings.target.weight "critChance" *
          effectiveContribution s baseStats "critChance")) := by
  constructor
  · intro h
    have hb : (s.displayType == "Special Critical Chance") = true := by simp [h]
    simp [Stat.getOptimizationValue, hb]
  · intro baseStats h hbs
    have hb1 : (s.displayType == "Special Critical Chance") = false := by simp [h]
    have hb2 : (s.displayType == "Physical Critical Chance") = true := by simp [h]
    cases hp : s.isPercent with
    | true => simp [Stat.getOptimizationValue, hb1, hb2, hbs, hp, effectiveContribution]
    | false => simp [Stat.getOptimizationValue, hb1, hb2, hp, effectiveContribution]

/-- Witness for C3: concrete Special and Physical Critical Chance stats. -/
theorem critChance_merge_witness :
    Stat.getOptimizationValue (fun d => if d == "Health" then some ["health"] else none)
      (mkStat "Special Critical Chance" ⟨1, false⟩ 1)
      ⟨"x", ⟨some fun _ => 10⟩, ⟨⟨"p", fun _ => 1⟩, false⟩⟩ = some 0 ∧
    Stat.getOptimizationValue (fun d => if d == "Health" then some ["health"] else none)
      (mkStat "Physical Critical Chance" ⟨10, false⟩ 1)
      ⟨"x", ⟨some fun _ => 10⟩, ⟨⟨"p", fun _ => 1⟩, false⟩⟩ =
      some ((⟨"x", ⟨some fun _ => 10⟩, ⟨⟨"p", fun _ => 1⟩, false⟩⟩ :
        Character).optimizerSettings.target.weight "critChance" *
        effectiveContribution (mkStat "Physical Critical Chance" ⟨10, false⟩ 1)
          (fun _ => 10) "critChance") :=
  ⟨(critChance_merge (fun d => if d == "Health" then some ["health"] else none)
      (mkStat "Special Critical Chance" ⟨1, false⟩ 1)
      ⟨"x", ⟨some fun _ => 10⟩, ⟨⟨"p", fun _ => 1⟩, false⟩⟩).1 rfl,
   (critChance_merge (fun d => if d == "Health" then some ["health"] else none)
      (mkStat "Physical Critical Chance" ⟨10, false⟩ 1)
      ⟨"x", ⟨some fun _ => 10⟩, ⟨⟨"p", fun _ => 1⟩, false⟩⟩).2 (fun _ => 10) rfl rfl⟩

/-- C4 counterexample: `getOptimizationValue` applies no cap.  Two flat
Physical Critical Chance stats whose contributions (150 and 200) both meet
or exceed the natural 100% ceiling get different values under a unit
`critChance` weight, so value keeps accruing above the cap. -/
theorem optimizationValue_cap_counterexample :
    (mkStat "Physical Critical Chance" ⟨150, false⟩ 1).value ≥ 100 ∧
    (mkStat "Physical Critical Chance" ⟨200, false⟩ 1).value ≥ 100 ∧
    Stat.getOptimizationValue (fun _ => none) (mkStat "Physical Critical Chance" ⟨150, false⟩ 1)
      ⟨"cc", ⟨some fun _ => 0⟩, ⟨⟨"p", fun _ => 1⟩, false⟩⟩ = some 150 ∧
    Stat.getOptimizationValue (fun _ => none) (mkStat "Physical Critical Chance" ⟨200, false⟩ 1)
      ⟨"cc", ⟨some fun _ => 0⟩, ⟨⟨"p", fun _ => 1⟩, false⟩⟩ = some 200 ∧
    Stat.getOptimizationValue (fun _ => none) (mkStat "Physical Critical Chance" ⟨150, false⟩ 1)
      ⟨"cc", ⟨some fun _ => 0⟩, ⟨⟨"p", fun _ => 1⟩, false⟩⟩ ≠
      Stat.getOptimizationValue (fun _ => none) (mkStat "Physical Critical Chance" ⟨200, false⟩ 1)
        ⟨"cc", ⟨some fun _ => 0⟩, ⟨⟨"p", fun _ => 1⟩, false⟩⟩ := by
  have e1 : Stat.getOptimizationValue (fun _ => none)
      (mkStat "Physical Critical Chance" ⟨150, false⟩ 1)
      ⟨"cc", ⟨some fun _ => 0⟩, ⟨⟨"p", fun _ => 1⟩, false⟩⟩ = some (0 + (1 : ℚ) * 150) := rfl
  have e2 : Stat.getOptimizationValue (fun _ => none)
      (mkStat "Physical Critical Chance" ⟨200, false⟩ 1)
      ⟨"cc", ⟨some fun _ => 0⟩, ⟨⟨"p", fun _ => 1⟩, false⟩⟩ = some (0 + (1 : ℚ) * 200) := rfl
  refine ⟨?_, ?_, ?_, ?_, ?_⟩
  · rw [mkStat_value]; norm_num
  · rw [mkStat_value]; norm_num
  · rw [e1]; norm_num
  · rw [e2]; norm_num
  · rw [e1, e2]
    intro h
    injection h with h
    norm_num at h

/-- C4 amended: `getOptimizationValue` applies no cap at all — for flat
crit-chance stats and a positive `critChance` weight, a larger contribution
always yields a strictly larger optimization value, with no threshold
beyond which value stops accruing. -/
theorem optimizationValue_no_cap (stm : String → Option (List String)) (c : Character)
    (s1 s2 : Stat)
    (h1 : s1.displayType = "Physical Critical Chance")
    (h2 : s2.displayType = "Physical Critical Chance")
    (hp1 : s1.isPercent = false) (hp2 : s2.isPercent = false)
    (hw : 0 < c.optimizerSettings.target.weight "critChance")
    (hv : s1.value < s2.value) :
    ∃ v1 v2, s1.getOptimizationValue stm c = some v1 ∧
      s2.getOptimizationValue stm c = some v2 ∧ v1 < v2 := by
  have hb1 : (s1.displayType == "Special Critical Chance") = false := by simp [h1]
  have hc1 : (s1.displayType == "Physical Critical Chance") = true := by simp [h1]
  have hb2 : (s2.displayType == "Special Critical Chance") = false := by simp [h2]
  have hc2 : (s2.displayType == "Physical Critical Chance") = true := by simp [h2]
  have e1 : s1.getOptimizationValue stm c =
      some (c.optimizerSettings.target.weight "critChance" * s1.value) := by
    simp [Stat.getOptimizationValue, hb1, hc1, hp1]
  have e2 : s2.getOptimizationValue stm c =
      some (c.optimizerSettings.target.weight "critChance" * s2.value) := by
    simp [Stat.getOptimizationValue, hb2, hc2, hp2]
  exact ⟨_, _, e1, e2, mul_lt_mul_of_pos_left hv hw⟩

/-- Witness for the amended C4: concrete stats with contributions 0 and 1
under a unit weight. -/
theorem optimizationValue_no_cap_witness :
    ∃ v1 v2,
      Stat.getOptimizationValue (fun _ => none) (mkStat "Physical Critical Chance" ⟨0, false⟩ 1)
        ⟨"cc", ⟨some fun _ => 0⟩, ⟨⟨"p", fun _ => 1⟩, false⟩⟩ = some v1 ∧
      Stat.getOptimizationValue (fun _ => none) (mkStat "Physical Critical Chance" ⟨1, false⟩ 1)
        ⟨"cc", ⟨some fun _ => 0⟩, ⟨⟨"p", fun _ => 1⟩, false⟩⟩ = some v2 ∧
      v1 < v2 :=
  optimizationValue_no_cap (fun _ => none)
    ⟨"cc", ⟨some fun _ => 0⟩, ⟨⟨"p", fun _ => 1⟩, false⟩⟩
    (mkStat "Physical Critical Chance" ⟨0, false⟩ 1)
    (mkStat "Physical Critical Chance" ⟨1, false⟩ 1)
    rfl rfl rfl rfl zero_lt_one zero_lt_one

/-- C5 counterexample: slicing a negative-valued `Offense %` secondary
multiplies it by 3.02 and so lowers it — the sliced value is not always at
least the original. -/
theorem upgradeSecondary_decrease_counterexample :
    (Stat.upgradeSecondary (mkStat "Offense %" ⟨-1, false⟩ 1)).value <
      (mkStat "Offense %" ⟨-1, false⟩ 1).value := by
  have h : Stat.upgradeSecondary (mkStat "Offense %" ⟨-1, false⟩ 1) =
      mkStat "Offense %" ⟨3.02 * (-1), false⟩ 1 := rfl
  rw [h, mkStat_value, mkStat_value]
  norm_num

/-- C5 amended: `upgradeSecondary` keeps the stat type; it multiplies the
value by the configured per-type factor, adds exactly 1 for `Speed`, and
returns the stat unchanged otherwise; for stats with nonnegative value the
sliced value is never lower than the original. -/
theorem upgradeSecondary_behavior (s : Stat) :
    (s.upgradeSecondary).type = s.type ∧
    (∀ f, Stat.secondaryUpgradeFactors s.type = some f →
      (s.upgradeSecondary).value = f * s.value) ∧
    (Stat.secondaryUpgradeFactors s.type = none → s.type = "Speed" →
      (s.upgradeSecondary).value = s.value + 1) ∧
    (Stat.secondaryUpgradeFactors s.type = none → s.type ≠ "Speed" →
      s.upgradeSecondary = s) ∧
    (0 ≤ s.value → s.value ≤ (s.upgradeSecondary).value) := by
  rcases hf : Stat.secondaryUpgradeFactors s.type with _ | f
  · by_cases hs : s.type = "Speed"
    · have hb : (s.type == "Speed") = true := by simp [hs]
      have hval : s.upgradeSecondary = mkStat s.type ⟨s.value + 1, false⟩ 1 := by
        simp only [Stat.upgradeSecondary, hf, hb, if_true]
      refine ⟨by rw [hval, mkStat_type], ?_, ?_, ?_, ?_⟩
      · intro f' hf'; simp [hf] at hf'
      · intro _ _; rw [hval, mkStat_value]
      · intro _ h; exact absurd hs h
      · intro _
        rw [hval, mkStat_value]
        show s.value ≤ s.value + 1
        linarith
    · have hb : (s.type == "Speed") = false := by simp [hs]
      have hval : s.upgradeSecondary = s := by
        simp only [Stat.upgradeSecondary, hf, hb, Bool.false_eq_true, if_false]
      refine ⟨by rw [hval], ?_, ?_, fun _ _ => hval, fun _ => by rw [hval]⟩
      · intro f' hf'; simp [hf] at hf'
      · intro _ h; exact absurd h hs
  · have hval : s.upgradeSecondary = mkStat s.type ⟨f * s.value, false⟩ 1 := by
      simp only [Stat.upgradeSecondary, hf]
    refine ⟨by rw [hval, mkStat_type], ?_, ?_, ?_, ?_⟩
    · intro f' hf'
      injection hf' with h
      rw [hval, mkStat_value, h]
    · intro h; simp at h
    · intro h; simp at h
    · intro hv
      rw [hval, mkStat_value]
      show s.value ≤ f * s.value
      exact le_mul_of_one_le_left hv (secondaryUpgradeFactor_ge_one _ _ hf)

/-- Witness for the amended C5: slicing a Speed secondary of value 0 adds
exactly 1 and does not lower it. -/
theorem upgradeSecondary_behavior_witness :
    (Stat.upgradeSecondary (mkStat "Speed" ⟨0, false⟩ 1)).type =
      (mkStat "Speed" ⟨0, false⟩ 1).type ∧
    (Stat.upgradeSecondary (mkStat "Speed" ⟨0, false⟩ 1)).value =
      (mkStat "Speed" ⟨0, false⟩ 1).value + 1 ∧
    (mkStat "Speed" ⟨0, false⟩ 1).value ≤
      (Stat.upgradeSecondary (mkStat "Speed" ⟨0, false⟩ 1)).value :=
  ⟨(upgradeSecondary_behavior (mkStat "Speed" ⟨0, false⟩ 1)).1,
   (upgradeSecondary_behavior (mkStat "Speed" ⟨0, false⟩ 1)).2.2.1 rfl rfl,
   (upgradeSecondary_behavior (mkStat "Speed" ⟨0, false⟩ 1)).2.2.2.2 (le_refl 0)⟩

/-- C6: For Stat operands, `plus` errors exactly when the display types or
the percent flags differ; on success the result keeps the receiver's type
and its value is the sum of the operands' values. -/
theorem plus_spec (s t : Stat) :
    ((∃ e, s.plus t = .error e) ↔
      (t.displayType ≠ s.displayType ∨ t.isPercent ≠ s.isPercent)) ∧
    (∀ r, s.plus t = .ok r → r.type = s.type ∧ r.value = s.value + t.value) := by
  cases hc : (t.displayType != s.displayType || t.isPercent != s.isPercent) with
  | true =>
    constructor
    · simp only [Stat.plus, hc, if_pos]
      constructor
      · intro _
        simpa [bne_iff_ne] using hc
      · intro _; exact ⟨_, rfl⟩
    · intro r hr
      simp [Stat.plus, hc] at hr
  | false =>
    constructor
    · simp only [Stat.plus, hc, Bool.false_eq_true, if_neg]
      constructor
      · rintro ⟨e, he⟩; simp at he
      · intro h
        simp [Bool.or_eq_false_iff, bne_eq_false_iff_eq] at hc
        rcases h with h | h <;> [exact absurd hc.1 h; exact absurd hc.2 h]
    · intro r hr
      simp only [Stat.plus, hc, Bool.false_eq_true, if_neg] at hr
      cases hr
      exact ⟨rfl, rfl⟩

/-- Witness for C6: adding two flat Health stats of values 1 and 2. -/
theorem plus_spec_witness :
    (mkStat "Health" ⟨(1 : ℚ) + 2, false⟩ 1).type = (mkStat "Health" ⟨1, false⟩ 1).type ∧
    (mkStat "Health" ⟨(1 : ℚ) + 2, false⟩ 1).value =
      (mkStat "Health" ⟨1, false⟩ 1).value + (mkStat "Health" ⟨2, false⟩ 1).value :=
  (plus_spec (mkStat "Health" ⟨1, false⟩ 1) (mkStat "Health" ⟨2, false⟩ 1)).2
    (mkStat "Health" ⟨(1 : ℚ) + 2, false⟩ 1) rfl

/-- C7: Moving a selected character keeps the selected list a permutation of
the original (same entries, same multiplicities), and moving an index onto
itself returns the profile unchanged. -/
theorem moveSelectedCharacter_permutation (profile : Profile) (fromIndex : Nat)
    (toIndex : Option Nat)
    (hfrom : fromIndex < profile.selectedCharacters.length)
    (hto : ∀ t, toIndex = some t → t < profile.selectedCharacters.length) :
    ∃ p2, moveSelectedCharacter fromIndex toIndex profile = some p2 ∧
      p2.selectedCharacters.Perm profile.selectedCharacters ∧
      (toIndex = some fromIndex → p2 = profile) := by
  by_cases he : toIndex = some fromIndex
  · have hb : (toIndex == some fromIndex) = true := by simp [he]
    exact ⟨profile, by simp [moveSelectedCharacter, hb], List.Perm.refl _, fun _ => rfl⟩
  · have hb : (toIndex == some fromIndex) = false := by simp [he]
    have hget : profile.selectedCharacters[fromIndex]? =
        some (profile.selectedCharacters[fromIndex]) := List.getElem?_eq_getElem hfrom
    have hperm := remove_at_perm profile.selectedCharacters fromIndex hfrom
    rcases toIndex with _ | t
    · refine ⟨{ profile with selectedCharacters :=
        profile.selectedCharacters[fromIndex] ::
          (profile.selectedCharacters.take fromIndex ++
            profile.selectedCharacters.drop (fromIndex + 1)) }, ?_, ?_, by simp⟩
      · simp [moveSelectedCharacter, hb, hget]
      · exact hperm.symm
    · by_cases hlt : fromIndex < t
      · refine ⟨{ profile with selectedCharacters :=
          (profile.selectedCharacters.take fromIndex ++
            profile.selectedCharacters.drop (fromIndex + 1)).take t ++
          profile.selectedCharacters[fromIndex] ::
            (profile.selectedCharacters.take fromIndex ++
              profile.selectedCharacters.drop (fromIndex + 1)).drop t }, ?_, ?_,
            by simp [he]⟩
        · simp [moveSelectedCharacter, hb, hget, hlt]
        · exact (take_cons_drop_perm _ t _).trans hperm.symm
      · refine ⟨{ profile with selectedCharacters :=
          (profile.selectedCharacters.take fromIndex ++
            profile.selectedCharacters.drop (fromIndex + 1)).take (t + 1) ++
          profile.selectedCharacters[fromIndex] ::
            (profile.selectedCharacters.take fromIndex ++
              profile.selectedCharacters.drop (fromIndex + 1)).drop (t + 1) }, ?_, ?_,
            by simp [he]⟩
        · simp [moveSelectedCharacter, hb, hget, hlt]
        · exact (take_cons_drop_perm _ (t + 1) _).trans hperm.symm

/-- Witness for C7: moving the first of two selected characters to index 1. -/
theorem moveSelectedCharacter_permutation_witness :
    ∃ p2, moveSelectedCharacter 0 (some 1)
      ⟨[⟨"a", ⟨"p", fun _ => 0⟩⟩, ⟨"b", ⟨"p", fun _ => 0⟩⟩], fun _ => none⟩ = some p2 ∧
      p2.selectedCharacters.Perm
        (⟨[⟨"a", ⟨"p", fun _ => 0⟩⟩, ⟨"b", ⟨"p", fun _ => 0⟩⟩], fun _ => none⟩ :
          Profile).selectedCharacters ∧
      (some 1 = some 0 →
        p2 = ⟨[⟨"a", ⟨"p", fun _ => 0⟩⟩, ⟨"b", ⟨"p", fun _ => 0⟩⟩], fun _ => none⟩) :=
  moveSelectedCharacter_permutation
    ⟨[⟨"a", ⟨"p", fun _ => 0⟩⟩, ⟨"b", ⟨"p", fun _ => 0⟩⟩], fun _ => none⟩
    0 (some 1) (by simp) (by simp)

/-- C8: Unselecting an in-range character removes exactly that entry from
the selected list and unlocks that character, leaving every other
character's record unchanged; an out-of-range index returns the profile
unchanged. -/
theorem unselectCharacter_spec (profile : Profile) (i : Nat) :
    (profile.selectedCharacters.length ≤ i → unselectCharacter i profile = some profile) ∧
    (∀ entry oldChar, profile.selectedCharacters[i]? = some entry →
      profile.characters entry.id = some oldChar →
      ∃ p2, unselectCharacter i profile = some p2 ∧
        p2.selectedCharacters =
          profile.selectedCharacters.take i ++ profile.selectedCharacters.drop (i + 1) ∧
        p2.characters entry.id =
          some { oldChar with
            optimizerSettings := { oldChar.optimizerSettings with isLocked := false } } ∧
        ∀ id, id ≠ entry.id → p2.characters id = profile.characters id) := by
  constructor
  · intro h
    have hb : ¬ (profile.selectedCharacters.length > i) := by omega
    simp [unselectCharacter, hb]
  · intro entry oldChar hget hchar
    have hlen : i < profile.selectedCharacters.length := by
      rcases List.getElem?_eq_some.mp hget with ⟨h, _⟩
      exact h
    have hb : profile.selectedCharacters.length > i := hlen
    refine ⟨{ profile with
        selectedCharacters :=
          profile.selectedCharacters.take i ++ profile.selectedCharacters.drop (i + 1)
        characters := fun id =>
          if id == entry.id then
            some (oldChar.withOptimizerSettings oldChar.optimizerSettings.unlock)
          else profile.characters id }, ?_, rfl, ?_, ?_⟩
    · simp [unselectCharacter, hb, hget, hchar]
    · show (if (entry.id == entry.id) = true then _ else _) = _
      simp [Character.withOptimizerSettings, OptimizerSettings.unlock]
    · intro id hne
      show (if (id == entry.id) = true then _ else _) = _
      simp [hne]

/-- Witness for C8: unselecting the only selected character of a concrete
profile with a locked character record. -/
theorem unselectCharacter_spec_witness :
    ∃ p2, unselectCharacter 0
      ⟨[⟨"a", ⟨"p", fun _ => 0⟩⟩],
        fun id => if id == "a" then
          some ⟨"a", ⟨none⟩, ⟨⟨"p", fun _ => 0⟩, true⟩⟩ else none⟩ = some p2 ∧
      p2.selectedCharacters =
        (⟨[⟨"a", ⟨"p", fun _ => 0⟩⟩],
          fun id => if id == "a" then
            some ⟨"a", ⟨none⟩, ⟨⟨"p", fun _ => 0⟩, true⟩⟩ else none⟩ :
          Profile).selectedCharacters.take 0 ++
        (⟨[⟨"a", ⟨"p", fun _ => 0⟩⟩],
          fun id => if id == "a" then
            some ⟨"a", ⟨none⟩, ⟨⟨"p", fun _ => 0⟩, true⟩⟩ else none⟩ :
          Profile).selectedCharacters.drop (0 + 1) ∧
      p2.characters (⟨"a", ⟨"p", fun _ => 0⟩⟩ : SelectedCharacter).id =
        some { (⟨"a", ⟨none⟩, ⟨⟨"p", fun _ => 0⟩, true⟩⟩ : Character) with
          optimizerSettings :=
            { (⟨"a", ⟨none⟩, ⟨⟨"p", fun _ => 0⟩, true⟩⟩ :
                Character).optimizerSettings with isLocked := false } } ∧
      ∀ id, id ≠ (⟨"a", ⟨"p", fun _ => 0⟩⟩ : SelectedCharacter).id →
        p2.characters id =
          (⟨[⟨"a", ⟨"p", fun _ => 0⟩⟩],
            fun id2 => if id2 == "a" then
              some ⟨"a", ⟨none⟩, ⟨⟨"p", fun _ => 0⟩, true⟩⟩ else none⟩ :
            Profile).characters id :=
  (unselectCharacter_spec
    ⟨[⟨"a", ⟨"p", fun _ => 0⟩⟩],
      fun id => if id == "a" then
        some ⟨"a", ⟨none⟩, ⟨⟨"p", fun _ => 0⟩, true⟩⟩ else none⟩ 0).2
    ⟨"a", ⟨"p", fun _ => 0⟩⟩ ⟨"a", ⟨none⟩, ⟨⟨"p", fun _ => 0⟩, true⟩⟩ rfl rfl

/-- C9: Both target-editing actions leave the profile unchanged for an index
at or beyond the end of the selected-characters list. -/
theorem target_edit_out_of_range (profile : Profile) (i : Nat)
    (target newTarget : OptimizationPlan)
    (h : profile.selectedCharacters.length ≤ i) :
    changeCharacterTarget i target profile = profile ∧
    finishEditCharacterTarget i newTarget profile = some profile := by
  constructor
  · simp [changeCharacterTarget, h]
  · simp [finishEditCharacterTarget, h]

/-- Witness for C9: index 0 on an empty selected-characters list. -/
theorem target_edit_out_of_range_witness :
    changeCharacterTarget 0 ⟨"t", fun _ => 0⟩ ⟨[], fun _ => none⟩ = ⟨[], fun _ => none⟩ ∧
    finishEditCharacterTarget 0 ⟨"t", fun _ => 0⟩ ⟨[], fun _ => none⟩ =
      some ⟨[], fun _ => none⟩ :=
  target_edit_out_of_range ⟨[], fun _ => none⟩ 0 ⟨"t", fun _ => 0⟩ ⟨"t", fun _ => 0⟩
    (Nat.le_refl 0)

/-- C10: Reconstructing a Stat from the three serialized components (type
string, value string, roll count) preserves the type, the numeric value and
the roll count. -/
theorem serialize_roundtrip (type : String) (v : ValueStr) (rolls : Nat) :
    (mkStat (mkStat type v rolls).serialize.1 (mkStat type v rolls).serialize.2.1
      (mkStat type v rolls).serialize.2.2).type = (mkStat type v rolls).type ∧
    (mkStat (mkStat type v rolls).serialize.1 (mkStat type v rolls).serialize.2.1
      (mkStat type v rolls).serialize.2.2).value = (mkStat type v rolls).value ∧
    (mkStat (mkStat type v rolls).serialize.1 (mkStat type v rolls).serialize.2.1
      (mkStat type v rolls).serialize.2.2).rolls = (mkStat type v rolls).rolls :=
  ⟨rfl, rfl, rfl⟩

end MO
